import Mathlib

/-!
Verification of the hybrid graph/vector RAG orchestrator
(`src/03_movie_wiki/{graph_rag,vector_rag,hybrid_rag}.py`).

Python values flowing out of the graph store are modelled by `PyVal`
(strings, integers, and lists; lists are the unhashable case).  External
collaborators (the LLM, the Kùzu store, the LanceDB store, the Cohere
reranker) are modelled as oracle fields of environment structures, and the
orchestration code is translated statement by statement.
-/

/-- A Python value returned in a graph query row: a string, an integer, or a
(list-valued, unhashable) composite. -/
inductive PyVal where
  | s (str : String)
  | i (n : Int)
  | list (xs : List PyVal)
deriving Repr

mutual

def PyVal.decEq : (a b : PyVal) → Decidable (a = b)
  | .s a, .s b =>
    if h : a = b then .isTrue (by rw [h]) else .isFalse (fun hh => h (by cases hh; rfl))
  | .i a, .i b =>
    if h : a = b then .isTrue (by rw [h]) else .isFalse (fun hh => h (by cases hh; rfl))
  | .list a, .list b =>
    match PyVal.decEqList a b with
    | .isTrue h => .isTrue (by rw [h])
    | .isFalse h => .isFalse (fun hh => h (by cases hh; rfl))
  | .s _, .i _ => .isFalse (fun hh => PyVal.noConfusion hh)
  | .s _, .list _ => .isFalse (fun hh => PyVal.noConfusion hh)
  | .i _, .s _ => .isFalse (fun hh => PyVal.noConfusion hh)
  | .i _, .list _ => .isFalse (fun hh => PyVal.noConfusion hh)
  | .list _, .s _ => .isFalse (fun hh => PyVal.noConfusion hh)
  | .list _, .i _ => .isFalse (fun hh => PyVal.noConfusion hh)

def PyVal.decEqList : (a b : List PyVal) → Decidable (a = b)
  | [], [] => .isTrue rfl
  | [], _ :: _ => .isFalse (fun hh => List.noConfusion hh)
  | _ :: _, [] => .isFalse (fun hh => List.noConfusion hh)
  | a :: as, b :: bs =>
    match PyVal.decEq a b, PyVal.decEqList as bs with
    | .isTrue h1, .isTrue h2 => .isTrue (by rw [h1, h2])
    | .isFalse h1, _ => .isFalse (fun hh => h1 (by cases hh; rfl))
    | .isTrue _, .isFalse h2 => .isFalse (fun hh => h2 (by cases hh; rfl))

end

instance : DecidableEq PyVal := PyVal.decEq

/-- Mirrors `isinstance(x, (str, int, float, bool, tuple))` in
`GraphRAG.query` (graph_rag.py line 83): strings and integers are hashable,
lists are not. -/
def isHashable : PyVal → Bool
  | .s _ => true
  | .i _ => true
  | .list _ => false

/-- The row-collection loop of `GraphRAG.query` (graph_rag.py lines 76-80):
`result = []; while response.has_next(): item = response.get_next();
if item not in result: result.extend(item)`.  Each row `item` is a Python
list, so the membership test compares the whole row (as a list value)
against the values already collected. -/
def collectRows (rows : List (List PyVal)) : List PyVal :=
  rows.foldl (fun result item =>
    if PyVal.list item ∈ result then result else result ++ item) []

/-- The order-preserving dedup of `GraphRAG.query` (graph_rag.py line 88):
`[x for i, x in enumerate(result) if x not in result[:i]]`.  The first
argument is the prefix `result[:i]` of already-scanned elements. -/
def dedupFirstAux : List PyVal → List PyVal → List PyVal
  | _, [] => []
  | pre, x :: rest =>
    if x ∈ pre then dedupFirstAux (pre ++ [x]) rest
    else x :: dedupFirstAux (pre ++ [x]) rest

/-- Specification-side dedup: keep each value at its first occurrence and
drop every later structurally-equal copy. -/
def firstOccurDedup : List PyVal → List PyVal
  | [] => []
  | x :: xs => x :: firstOccurDedup (xs.filter (fun v => decide (v ≠ x)))
termination_by xs => xs.length
decreasing_by
  simp only [List.length_cons]
  exact Nat.lt_succ_of_le (List.length_filter_le _ _)

theorem dedupFirstAux_nodup (xs : List PyVal) : ∀ pre : List PyVal,
    (dedupFirstAux pre xs).Nodup ∧ ∀ v ∈ dedupFirstAux pre xs, v ∉ pre := by
  induction xs with
  | nil => intro pre; simp [dedupFirstAux]
  | cons x rest ih =>
    intro pre
    by_cases hx : x ∈ pre
    · simp only [dedupFirstAux, if_pos hx]
      obtain ⟨hnd, hmem⟩ := ih (pre ++ [x])
      refine ⟨hnd, fun v hv hvp => hmem v hv ?_⟩
      exact List.mem_append_left _ hvp
    · simp only [dedupFirstAux, if_neg hx]
      obtain ⟨hnd, hmem⟩ := ih (pre ++ [x])
      constructor
      · refine List.nodup_cons.mpr ⟨fun hxin => ?_, hnd⟩
        exact hmem x hxin (List.mem_append_right _ (List.mem_singleton.mpr rfl))
      · intro v hv hvp
        rcases List.mem_cons.mp hv with h | h
        · exact hx (h ▸ hvp)
        · exact hmem v h (List.mem_append_left _ hvp)

theorem dedupFirstAux_mem (xs : List PyVal) : ∀ (pre : List PyVal) (v : PyVal),
    v ∈ dedupFirstAux pre xs ↔ v ∈ xs ∧ v ∉ pre := by
  induction xs with
  | nil => intro pre v; simp [dedupFirstAux]
  | cons x rest ih =>
    intro pre v
    have hpre : ∀ w : PyVal, w ∈ pre ++ [x] ↔ w ∈ pre ∨ w = x := by
      intro w; simp
    by_cases hx : x ∈ pre
    · simp only [dedupFirstAux, if_pos hx, ih, hpre, List.mem_cons]
      constructor
      · rintro ⟨hvr, hvp⟩
        refine ⟨Or.inr hvr, fun h => hvp (Or.inl h)⟩
      · rintro ⟨hvx | hvr, hvp⟩
        · exact absurd (hvx ▸ hx) hvp
        · refine ⟨hvr, fun h => ?_⟩
          rcases h with h | h
          · exact hvp h
          · exact hvp (h ▸ hx)
    · simp only [dedupFirstAux, if_neg hx, List.mem_cons, ih, hpre]
      constructor
      · rintro (rfl | ⟨hvr, hvp⟩)
        · exact ⟨Or.inl rfl, hx⟩
        · refine ⟨Or.inr hvr, fun h => hvp (Or.inl h)⟩
      · rintro ⟨hvx | hvr, hvp⟩
        · exact Or.inl hvx
        · by_cases hvx : v = x
          · exact Or.inl hvx
          · refine Or.inr ⟨hvr, fun h => ?_⟩
            rcases h with h | h
            · exact hvp h
            · exact hvx h

theorem dedupFirstAux_eq_firstOccur (xs : List PyVal) : ∀ pre : List PyVal,
    dedupFirstAux pre xs = firstOccurDedup (xs.filter (fun v => decide (v ∉ pre))) := by
  induction xs with
  | nil => intro pre; simp [dedupFirstAux, firstOccurDedup]
  | cons x rest ih =>
    intro pre
    by_cases hx : x ∈ pre
    · have hfilter : (x :: rest).filter (fun v => decide (v ∉ pre))
          = rest.filter (fun v => decide (v ∉ pre)) := by
        simp [hx]
      have hcongr : rest.filter (fun v => decide (v ∉ pre ++ [x]))
          = rest.filter (fun v => decide (v ∉ pre)) := by
        apply List.filter_congr
        intro a _
        by_cases h1 : a ∈ pre <;> by_cases h2 : a = x <;>
          simp [h1, h2, hx, List.mem_append]
      simp only [dedupFirstAux, if_pos hx, ih, hfilter, hcongr]
    · have hfilter : (x :: rest).filter (fun v => decide (v ∉ pre))
          = x :: rest.filter (fun v => decide (v ∉ pre)) := by
        simp [hx]
      have hcongr : rest.filter (fun v => decide (v ∉ pre ++ [x]))
          = (rest.filter (fun v => decide (v ∉ pre))).filter
              (fun v => decide (v ≠ x)) := by
        rw [List.filter_filter]
        apply List.filter_congr
        intro a _
        by_cases h1 : a ∈ pre <;> by_cases h2 : a = x <;>
          simp [h1, h2, List.mem_append]
      simp only [dedupFirstAux, if_neg hx, ih, hfilter, hcongr]
      rw [firstOccurDedup]

/-- Model of the iteration order of a Python `set`: `pick xs` stands for
`list(set(xs))`, an enumeration of the distinct elements of `xs` in an order
CPython does not specify (it depends on the process hash seed). -/
structure SetOrder where
  pick : List PyVal → List PyVal
  nodup : ∀ xs, (pick xs).Nodup
  mem : ∀ xs v, v ∈ pick xs ↔ v ∈ xs

/-- A possible set order that happens to enumerate in first-appearance
order. -/
def insOrder : SetOrder where
  pick xs := dedupFirstAux [] xs
  nodup xs := (dedupFirstAux_nodup xs []).1
  mem xs v := by rw [dedupFirstAux_mem]; simp

/-- A possible set order that enumerates distinct elements in reverse order
of first appearance. -/
def revOrder : SetOrder where
  pick xs := (dedupFirstAux [] xs).reverse
  nodup xs := List.nodup_reverse.mpr (dedupFirstAux_nodup xs []).1
  mem xs v := by rw [List.mem_reverse, dedupFirstAux_mem]; simp

/-- `GraphRAG.query` (graph_rag.py lines 73-90): execute a Cypher statement,
flatten the row stream (lines 76-80), then dedup — via `list(set(result))`
when every value is hashable (line 84), else via the order-preserving list
comprehension (line 88) — and wrap as the dict `{question: deduped}`,
modelled as a one-entry association list.  The row stream delivered by
`conn.execute` is the `rows` argument; `order` models the unspecified
`set()` iteration order. -/
def GraphRAG.query (order : SetOrder) (question : String)
    (rows : List (List PyVal)) : List (String × List PyVal) :=
  let result := collectRows rows
  if result.all isHashable then [(question, order.pick result)]
  else [(question, dedupFirstAux [] result)]

/-- The row stream of claim C1: rows `[["A","B"],["A","C"],["A","B"]]`. -/
def exRowsC1 : List (List PyVal) :=
  [[.s "A", .s "B"], [.s "A", .s "C"], [.s "A", .s "B"]]

/-- C1, counterexample.  All values of the example rows are strings, so
`GraphRAG.query` takes the `list(set(result))` branch, whose order is the
unspecified set-iteration order: under the admissible order `revOrder` the
result is `["C","B","A"]`, not `["A","B","C"]` — first-appearance order is
not guaranteed. -/
theorem C1_counterexample :
    GraphRAG.query revOrder "q" exRowsC1
        = [("q", [PyVal.s "C", PyVal.s "B", PyVal.s "A"])] ∧
      [PyVal.s "C", PyVal.s "B", PyVal.s "A"]
        ≠ [PyVal.s "A", PyVal.s "B", PyVal.s "C"] := by
  constructor
  · rfl
  · decide

/-- C1, amended: `GraphRAG.query` returns the dict `{question: vals}` where
`vals` holds each distinct flattened value exactly once; the order is the
order of first appearance only when some value is unhashable (the list
comprehension branch); when all values are hashable the order is Python's
unspecified `set()` iteration order. -/
theorem C1_theorem (order : SetOrder) (question : String)
    (rows : List (List PyVal)) :
    ∃ vals, GraphRAG.query order question rows = [(question, vals)] ∧
      vals.Nodup ∧ (∀ v, v ∈ vals ↔ v ∈ collectRows rows) ∧
      ((collectRows rows).all isHashable = false →
        vals = firstOccurDedup (collectRows rows)) := by
  unfold GraphRAG.query
  by_cases h : (collectRows rows).all isHashable
  · refine ⟨order.pick (collectRows rows), by simp [h], order.nodup _, order.mem _, ?_⟩
    intro hf
    rw [h] at hf
    cases hf
  · refine ⟨dedupFirstAux [] (collectRows rows), by simp [h],
      (dedupFirstAux_nodup _ []).1, ?_, ?_⟩
    · intro v
      rw [dedupFirstAux_mem]
      simp
    · intro _
      have hrw := dedupFirstAux_eq_firstOccur (collectRows rows) []
      simpa using hrw

/-- C1, witness: on rows whose values are unhashable lists, the dedup is in
first-appearance order with each distinct value once. -/
theorem C1_witness :
    (GraphRAG.query insOrder "q" [[.list [.s "A"]], [.list [.s "A"]]]).map
        Prod.fst = ["q"] := by
  obtain ⟨vals, heq, -⟩ := C1_theorem insOrder "q" [[.list [.s "A"]], [.list [.s "A"]]]
  rw [heq]
  rfl

/-- C8: a query whose execution yields zero rows makes `GraphRAG.query`
return an empty deduplicated value list (under the question key), and the
function is total — no error is raised. -/
theorem C8_theorem (order : SetOrder) (question : String) :
    GraphRAG.query order question [] = [(question, [])] := by
  have hpick : order.pick [] = [] :=
    List.eq_nil_iff_forall_not_mem.mpr fun v hv =>
      (List.not_mem_nil v) ((order.mem [] v).mp hv)
  unfold GraphRAG.query
  simp [collectRows, hpick]

/-- C8, witness at a concrete question and the empty row stream. -/
theorem C8_witness :
    GraphRAG.query insOrder "Who wrote the movie Interstellar?" []
      = [("Who wrote the movie Interstellar?", [])] :=
  C8_theorem insOrder "Who wrote the movie Interstellar?"

/-- A row stream used to witness C9. -/
def exRowsC9 : List (List PyVal) := [[.s "A", .s "B"], [.s "B", .s "C"]]

/-- C9: `GraphRAG.query` returns a dict with exactly one key — the question
itself — mapped to the deduplicated value list, not a bare sequence. -/
theorem C9_theorem (order : SetOrder) (question : String)
    (rows : List (List PyVal)) :
    (GraphRAG.query order question rows).map Prod.fst = [question] ∧
      ∀ e ∈ GraphRAG.query order question rows, (e.2).Nodup := by
  unfold GraphRAG.query
  by_cases h : (collectRows rows).all isHashable <;> simp [h]
  · exact order.nodup _
  · exact (dedupFirstAux_nodup _ []).1

/-- C9, witness at a concrete question and row stream. -/
theorem C9_witness :
    (GraphRAG.query insOrder "q9" exRowsC9).map Prod.fst = ["q9"] :=
  (C9_theorem insOrder "q9" exRowsC9).1

mutual

/-- Python `repr`/`str` of a value (strings render single-quoted, lists in
brackets), as produced by `str(doc)` in hybrid_rag.py line 43. -/
def pyReprVal : PyVal → String
  | .s str => "'" ++ str ++ "'"
  | .i n => toString n
  | .list xs => "[" ++ pyReprValSeq xs ++ "]"

def pyReprValSeq : List PyVal → String
  | [] => ""
  | [x] => pyReprVal x
  | x :: y :: rest => pyReprVal x ++ ", " ++ pyReprValSeq (y :: rest)

end

/-- Python `str` of the dict returned by `GraphRAG.query` (a one-entry dict
whose value is a list), e.g. `\x7b'q': ['A', 'B']\x7d`. -/
def pyStrDict (d : List (String × List PyVal)) : String :=
  "\x7b" ++ String.intercalate ", "
    (d.map fun e => "'" ++ e.1 ++ "': [" ++ pyReprValSeq e.2 ++ "]") ++ "\x7d"

/-- Errors raised by the Python code or its backends: `TypeError` (iterating
`None`), a store/runtime error, or a backend API failure. -/
inductive PyErr where
  | typeError
  | runtimeError (msg : String)
  | apiError (msg : String)
deriving DecidableEq, Repr

/-- A text chunk from the LanceDB similarity search (`select(["text"])`). -/
structure Chunk where
  text : String
deriving DecidableEq, Repr

/-- `VectorRAG.query` (vector_rag.py lines 18-22).  The store's ranked
result list is the argument; line 22, `return search_result if search_result
else None`, maps an empty result list to `None` (Python truthiness). -/
def VectorRAG.query (search_result : List Chunk) : Option (List Chunk) :=
  if search_result.isEmpty then none else some search_result

/-- One entry of the Cohere rerank response: a document and its relevance
score. -/
structure RerankItem where
  document : String
  score : Int
deriving DecidableEq, Repr

/-- The external collaborators of `HybridRAG.run` (hybrid_rag.py lines
33-52): the embedding+similarity search (lines 34-35), the Cypher
translator LLM (line 38), the graph store's row stream for an executed
query (line 39), the `set()` iteration order inside `GraphRAG.query`, the
Cohere reranker (lines 45-51), and the answer-synthesis LLM (line 52). -/
structure HEnv where
  searchResult : String → Except PyErr (List Chunk)
  genCypher : String → Except PyErr String
  graphRows : String → Except PyErr (List (List PyVal))
  setOrder : SetOrder
  rerank : String → List String → Nat → Except PyErr (List RerankItem)
  hybrid_rag : String → List RerankItem → Except PyErr String

/-- hybrid_rag.py lines 34-36: embed the question, run the similarity
search, and take `doc["text"]` of each result.  Iterating the `None` that
`VectorRAG.query` returns on an empty search raises `TypeError`. -/
def vectorDocsStage (env : HEnv) (question : String) :
    Except PyErr (List String) :=
  match env.searchResult question with
  | .error e => .error e
  | .ok search_result =>
    match VectorRAG.query search_result with
    | none => .error .typeError
    | some vector_docs => .ok (vector_docs.map Chunk.text)

/-- hybrid_rag.py lines 38-39: `cypher = self.graph_rag.generate_cypher(
question)` then `graph_docs = self.graph_rag.query(question, cypher)`.  The
result carries the Cypher string passed to execution together with the
query result dict. -/
def graphStage (env : HEnv) (question : String) :
    Except PyErr (String × List (String × List PyVal)) :=
  match env.genCypher question with
  | .error e => .error e
  | .ok cypher =>
    match env.graphRows cypher with
    | .error e => .error e
    | .ok rows => .ok (cypher, GraphRAG.query env.setOrder question rows)

/-- hybrid_rag.py lines 41-43: `docs = [graph_docs] + vector_docs` then
`docs = [str(doc) for doc in docs]`. -/
def docsStage (env : HEnv) (question : String) : Except PyErr (List String) :=
  match vectorDocsStage env question with
  | .error e => .error e
  | .ok vector_docs =>
    match graphStage env question with
    | .error e => .error e
    | .ok g => .ok (pyStrDict g.2 :: vector_docs)

/-- hybrid_rag.py lines 45-51: call the Cohere reranker on the combined
candidate list with the hard-coded `top_n=20`. -/
def fusedStage (env : HEnv) (question : String) :
    Except PyErr (List RerankItem) :=
  match docsStage env question with
  | .error e => .error e
  | .ok docs => env.rerank question docs 20

/-- `HybridRAG.run` (hybrid_rag.py lines 33-52): vector retrieval, graph
retrieval, fusion via the reranker, then answer synthesis.  The source has
no `try`/`except`, so every failure of a stage propagates. -/
def HybridRAG.run (env : HEnv) (question : String) : Except PyErr String :=
  match fusedStage env question with
  | .error e => .error e
  | .ok combined_context => env.hybrid_rag question combined_context

/-- Observes whether a run produced an answer (as opposed to raising). -/
def isAnswer : Except PyErr String → Bool
  | .ok _ => true
  | .error _ => false

/-- Assigns strictly decreasing scores down a document list. -/
def scoreDocs : Int → List String → List RerankItem
  | _, [] => []
  | sc, d :: ds => ⟨d, sc⟩ :: scoreDocs (sc - 1) ds

/-- A concrete reranker satisfying the Cohere rerank contract: scores
documents in strictly decreasing order and returns at most `topN` of
them. -/
def modelRerank (_q : String) (docs : List String) (topN : Nat) :
    List RerankItem :=
  (scoreDocs (docs.length : Int) docs).take topN

/-- The contract of the external Cohere rerank endpoint: on success it
returns `min top_n candidates` items ordered by non-increasing relevance
score. -/
def rerankConforms
    (f : String → List String → Nat → Except PyErr (List RerankItem)) :
    Prop :=
  ∀ q docs n items, f q docs n = .ok items →
    items.length = min n docs.length ∧
    items.Pairwise (fun a b => b.score ≤ a.score)

theorem scoreDocs_length (ds : List String) :
    ∀ sc : Int, (scoreDocs sc ds).length = ds.length := by
  induction ds with
  | nil => intro sc; rfl
  | cons d ds ih => intro sc; simp [scoreDocs, ih]

theorem scoreDocs_score_le (ds : List String) :
    ∀ (sc : Int) (it : RerankItem), it ∈ scoreDocs sc ds → it.score ≤ sc := by
  induction ds with
  | nil => intro sc it h; cases h
  | cons d ds ih =>
    intro sc it h
    rcases List.mem_cons.mp h with rfl | h
    · exact le_refl _
    · have := ih (sc - 1) it h
      omega

theorem scoreDocs_pairwise (ds : List String) :
    ∀ sc : Int, (scoreDocs sc ds).Pairwise (fun a b => b.score ≤ a.score) := by
  induction ds with
  | nil => intro sc; exact List.Pairwise.nil
  | cons d ds ih =>
    intro sc
    refine List.Pairwise.cons ?_ (ih (sc - 1))
    intro b hb
    have := scoreDocs_score_le ds (sc - 1) b hb
    show b.score ≤ sc
    omega

theorem modelRerankE_conforms :
    rerankConforms (fun q docs n => .ok (modelRerank q docs n)) := by
  intro q docs n items h
  injection h with h
  subst h
  constructor
  · rw [modelRerank, List.length_take, scoreDocs_length]
  · exact List.Pairwise.sublist (List.take_sublist _ _) (scoreDocs_pairwise docs _)

/-- Environment for C2: the similarity search succeeds but returns zero
results; every other collaborator behaves normally. -/
def envC2 : HEnv where
  searchResult _ := .ok []
  genCypher _ := .ok "MATCH (m:Movie) RETURN m.title"
  graphRows _ := .ok [[.s "Interstellar"]]
  setOrder := insOrder
  rerank q docs n := .ok (modelRerank q docs n)
  hybrid_rag _ _ := .ok "answer"

/-- C2, code evaluation at the failing input: when the similarity search
returns zero results, `VectorRAG.query` returns `None` (not an empty list),
and `HybridRAG.run`'s list comprehension over that `None` raises
`TypeError` — the orchestrator does not tolerate the empty modality. -/
theorem C2_code_eval :
    VectorRAG.query [] = none ∧
      HybridRAG.run envC2 "q2" = .error PyErr.typeError ∧
      isAnswer (HybridRAG.run envC2 "q2") = false :=
  ⟨rfl, rfl, rfl⟩

/-- Environment for C3: the vector branch succeeds with one chunk, the
graph query execution raises a store error. -/
def envC3 : HEnv where
  searchResult _ := .ok [⟨"Interstellar is a 2014 epic science fiction film."⟩]
  genCypher _ := .ok "MATCH (w:Writer)-[:WROTE]->(m:Movie) RETURN w.name"
  graphRows _ := .error (PyErr.runtimeError "Parser exception")
  setOrder := insOrder
  rerank q docs n := .ok (modelRerank q docs n)
  hybrid_rag _ _ := .ok "answer"

/-- C3, counterexample: the vector branch succeeds with one chunk while the
graph query raises, and `HybridRAG.run` (which contains no error handling)
propagates the failure instead of returning an answer. -/
theorem C3_counterexample :
    HybridRAG.run envC3 "q3" = .error (PyErr.runtimeError "Parser exception") ∧
      isAnswer (HybridRAG.run envC3 "q3") = false :=
  ⟨rfl, rfl⟩

/-- C3, amended: when the vector branch has succeeded and the graph branch
fails, `HybridRAG.run` propagates the graph error — there is no degradation
to vector-only fusion. -/
theorem C3_theorem (env : HEnv) (question cypher : String) (e : PyErr)
    (docs : List String)
    (hv : vectorDocsStage env question = .ok docs)
    (hc : env.genCypher question = .ok cypher)
    (hg : env.graphRows cypher = .error e) :
    HybridRAG.run env question = .error e := by
  simp only [HybridRAG.run, fusedStage, docsStage, graphStage, hv, hc, hg]

/-- C3, witness: the amended statement at the concrete environment. -/
theorem C3_witness :
    HybridRAG.run envC3 "q3w" = .error (PyErr.runtimeError "Parser exception") :=
  C3_theorem envC3 "q3w" "MATCH (w:Writer)-[:WROTE]->(m:Movie) RETURN w.name"
    (PyErr.runtimeError "Parser exception")
    ["Interstellar is a 2014 epic science fiction film."] rfl rfl rfl

/-- Environment for C4: both retrieval branches succeed; the Cohere rerank
call fails. -/
def envC4 : HEnv where
  searchResult _ := .ok [⟨"chunk one"⟩, ⟨"chunk two"⟩]
  genCypher _ := .ok "MATCH (m:Movie) RETURN m.title"
  graphRows _ := .ok [[.s "Interstellar"]]
  setOrder := insOrder
  rerank _ _ _ := .error (PyErr.apiError "cohere unavailable")
  hybrid_rag _ _ := .ok "answer"

/-- C4, counterexample: when the reranking capability is unavailable the
whole request fails — `HybridRAG.run` propagates the reranker error instead
of falling back to graph-candidate-first ordering. -/
theorem C4_counterexample :
    HybridRAG.run envC4 "q4" = .error (PyErr.apiError "cohere unavailable") ∧
      isAnswer (HybridRAG.run envC4 "q4") = false :=
  ⟨rfl, rfl⟩

/-- C4, amended: a failure of the rerank call propagates out of
`HybridRAG.run`; no deterministic fallback ordering exists in the code. -/
theorem C4_theorem (env : HEnv) (question : String) (docs : List String)
    (e : PyErr)
    (hd : docsStage env question = .ok docs)
    (hr : env.rerank question docs 20 = .error e) :
    HybridRAG.run env question = .error e := by
  simp only [HybridRAG.run, fusedStage, hd, hr]

/-- C4, witness: the amended statement at the concrete environment. -/
theorem C4_witness :
    HybridRAG.run envC4 "q4w" = .error (PyErr.apiError "cohere unavailable") :=
  C4_theorem envC4 "q4w"
    (pyStrDict [("q4w", [PyVal.s "Interstellar"])] :: ["chunk one", "chunk two"])
    (PyErr.apiError "cohere unavailable") rfl rfl

/-- Recognizes a triple-backtick code fence at the head of a character
list. -/
def isFenceStart : List Char → Bool
  | a :: b :: c :: _ => a == '`' && b == '`' && c == '`'
  | _ => false

/-- Scans a character list for a triple-backtick code fence. -/
def hasTripleBacktick : List Char → Bool
  | [] => false
  | c :: cs => isFenceStart (c :: cs) || hasTripleBacktick cs

/-- True when the string contains a triple-backtick code-fence marker. -/
def containsFence (s : String) : Bool := hasTripleBacktick s.data

/-- A translator output wrapped in code fences, as an LLM may produce
despite the prompt's instruction not to. -/
def fencedCypher : String :=
  "```cypher\nMATCH (w:Writer)-[:WROTE]->(m:Movie) RETURN w.name\n```"

/-- Environment for C5: the translator returns a fence-wrapped Cypher
string; everything else behaves normally. -/
def envC5 : HEnv where
  searchResult _ := .ok [⟨"some chunk"⟩]
  genCypher _ := .ok fencedCypher
  graphRows _ := .ok [[.s "Jonathan Nolan"]]
  setOrder := insOrder
  rerank q docs n := .ok (modelRerank q docs n)
  hybrid_rag _ _ := .ok "answer"

/-- C5, counterexample: the translator output contains code fences and the
string reaching graph execution (the first component of `graphStage`'s
result, i.e. the argument passed to `conn.execute`) is that output
verbatim, fences included — nothing validates or strips it. -/
theorem C5_counterexample :
    graphStage envC5 "q5"
        = .ok (fencedCypher, [("q5", [PyVal.s "Jonathan Nolan"])]) ∧
      containsFence fencedCypher = true :=
  ⟨rfl, rfl⟩

/-- C5, amended: no sanitization exists — the Cypher string executed by the
graph stage of `HybridRAG.run` is exactly the translator's raw output, so
when that output contains triple-backtick fences the executed query string
still contains them. -/
theorem C5_theorem (env : HEnv) (question cypher : String)
    (g : String × List (String × List PyVal))
    (hgen : env.genCypher question = .ok cypher)
    (hfence : containsFence cypher = true)
    (hrun : graphStage env question = .ok g) :
    g.1 = cypher ∧ containsFence g.1 = true := by
  cases hg : env.graphRows cypher with
  | error e =>
    simp only [graphStage, hgen, hg] at hrun
    exact Except.noConfusion hrun
  | ok rows =>
    simp only [graphStage, hgen, hg] at hrun
    injection hrun with hrun
    subst hrun
    exact ⟨rfl, hfence⟩

/-- The graph-stage result in the C5 environment. -/
def gC5 : String × List (String × List PyVal) :=
  (fencedCypher, [("q5w", [PyVal.s "Jonathan Nolan"])])

/-- C5, witness: the amended statement at the concrete environment. -/
theorem C5_witness : gC5.1 = fencedCypher ∧ containsFence gC5.1 = true :=
  C5_theorem envC5 "q5w" fencedCypher gC5 rfl rfl rfl

/-- The five vector chunks of the C7 scenario. -/
def chunksC7 : List Chunk := [⟨"c1"⟩, ⟨"c2"⟩, ⟨"c3"⟩, ⟨"c4"⟩, ⟨"c5"⟩]

/-- Environment for C7: one graph candidate, five vector chunks, a
contract-conforming reranker. -/
def envC7 : HEnv where
  searchResult _ := .ok chunksC7
  genCypher _ := .ok "MATCH (m:Movie) RETURN m.title"
  graphRows _ := .ok [[.s "Interstellar"]]
  setOrder := insOrder
  rerank q docs n := .ok (modelRerank q docs n)
  hybrid_rag _ _ := .ok "answer"

/-- C7, counterexample: the code passes the hard-coded `top_n=20` — there is
no caller-supplied truncation bound — so fusing 1 graph candidate with 5
chunks yields all 6 candidates, not 3. -/
theorem C7_counterexample :
    Except.map List.length (fusedStage envC7 "q7") = .ok 6 ∧ (6 : Nat) ≠ 3 :=
  ⟨rfl, by decide⟩

/-- C7, amended: the fused context is the reranker's output on the combined
candidate list at the hard-coded `top_n = 20`: for any reranker satisfying
the Cohere rerank contract, the fused context has length at most 20 and is
ordered by non-increasing relevance score. -/
theorem C7_theorem (env : HEnv) (question : String) (items : List RerankItem)
    (hconf : rerankConforms env.rerank)
    (hf : fusedStage env question = .ok items) :
    items.length ≤ 20 ∧ items.Pairwise (fun a b => b.score ≤ a.score) := by
  unfold fusedStage at hf
  cases hd : docsStage env question with
  | error e => rw [hd] at hf; exact Except.noConfusion hf
  | ok docs =>
    rw [hd] at hf
    obtain ⟨hlen, hsort⟩ := hconf question docs 20 items hf
    refine ⟨?_, hsort⟩
    rw [hlen]
    exact min_le_left _ _

/-- The combined candidate list of the C7 witness scenario. -/
def docsC7 : List String :=
  pyStrDict [("q7w", [PyVal.s "Interstellar"])]
    :: ["c1", "c2", "c3", "c4", "c5"]

/-- The fused context of the C7 witness scenario. -/
def fusedC7 : List RerankItem := modelRerank "q7w" docsC7 20

/-- C7, witness: the amended statement at the concrete environment. -/
theorem C7_witness :
    fusedC7.length ≤ 20 ∧ fusedC7.Pairwise (fun a b => b.score ≤ a.score) :=
  C7_theorem envC7 "q7w" fusedC7 modelRerankE_conforms rfl

/-- One node-table property as reported by
`conn._get_node_property_names`: a name, a type string, a list dimension,
and an optional fixed shape. -/
structure NodeProp where
  name : String
  type : String
  dimension : Nat
  shape : Option (List Nat)

/-- One node table of the store metadata. -/
structure NodeTable where
  name : String
  props : List NodeProp

/-- One relationship table: its name, endpoint labels, and the property
rows returned by `CALL table_info(...)` (name and type, row[1] and
row[2]). -/
structure RelTable where
  name : String
  src : String
  dst : String
  props : List (String × String)

/-- The graph store metadata snapshot `GraphRAG.get_schema` reads through
`_get_node_table_names`, `_get_node_property_names`,
`_get_rel_table_names` and `CALL table_info`. -/
structure KuzuMeta where
  nodeTables : List NodeTable
  relTables : List RelTable

/-- graph_rag.py lines 37-45: the list-type marker appended to a property
type — `[s]` per shape entry when a shape is present, else `[]` per
dimension. -/
def listTypeFlag (dimension : Nat) (shape : Option (List Nat)) : String :=
  if dimension > 0 then
    match shape with
    | some sh => String.join (sh.map fun sdim => "[" ++ toString sdim ++ "]")
    | none => String.join ((List.range dimension).map fun _ => "[]")
  else ""

/-- Python repr of a list of `(name, type)` string pairs. -/
def pyReprPropPairs (ps : List (String × String)) : String :=
  "[" ++ String.intercalate ", "
    (ps.map fun p => "('" ++ p.1 ++ "', '" ++ p.2 ++ "')") ++ "]"

/-- Python repr of one `current_table_schema` dict
(`\x7b"properties": [...], "label": name\x7d`, insertion order). -/
def pyReprTableSchema (label : String) (props : List (String × String)) :
    String :=
  "\x7b'properties': " ++ pyReprPropPairs props ++ ", 'label': '"
    ++ label ++ "'\x7d"

/-- Python repr of a list of table-schema dicts. -/
def pyReprSchemaList (ts : List (String × List (String × String))) : String :=
  "[" ++ String.intercalate ", " (ts.map fun t => pyReprTableSchema t.1 t.2)
    ++ "]"

/-- Python repr of a list of strings. -/
def pyReprStrList (ss : List String) : String :=
  "[" ++ String.intercalate ", " (ss.map fun s => "'" ++ s ++ "'") ++ "]"

/-- `GraphRAG.get_schema` (graph_rag.py lines 28-71): render node
properties, relationship properties, and relationship patterns from the
store metadata into the prompt text, using Python's f-string (repr)
rendering of the intermediate lists of dicts. -/
def GraphRAG.get_schema (m : KuzuMeta) : String :=
  let node_properties := m.nodeTables.map fun t =>
    (t.name, t.props.map fun p =>
      (p.name, p.type ++ listTypeFlag p.dimension p.shape))
  let relationships := m.relTables.map fun t =>
    "(:" ++ t.src ++ ")-[:" ++ t.name ++ "]->(:" ++ t.dst ++ ")"
  let rel_properties := m.relTables.map fun t => (t.name, t.props)
  "Node properties: " ++ pyReprSchemaList node_properties ++ "\n"
    ++ "Relationships properties: " ++ pyReprSchemaList rel_properties ++ "\n"
    ++ "Relationships: " ++ pyReprStrList relationships ++ "\n"

/-- A concrete metadata snapshot for the movie-wiki graph. -/
def movieMeta : KuzuMeta where
  nodeTables :=
    [⟨"Movie", [⟨"title", "STRING", 0, none⟩,
                ⟨"embedding", "FLOAT", 1, some [1536]⟩]⟩,
     ⟨"Writer", [⟨"name", "STRING", 0, none⟩]⟩]
  relTables := [⟨"WROTE", "Writer", "Movie", [("year", "INT64")]⟩]

/-- C6: schema rendering is deterministic — `GraphRAG.get_schema` is a
function of the store metadata alone, so two calls against stores with
identical metadata produce byte-identical text. -/
theorem C6_theorem (m1 m2 : KuzuMeta) (h : m1 = m2) :
    GraphRAG.get_schema m1 = GraphRAG.get_schema m2 := by
  rw [h]

set_option maxRecDepth 8192 in
/-- C6, witness: two renderings of the concrete movie-wiki metadata are
byte-identical, and the rendered text is the expected schema string. -/
theorem C6_witness :
    GraphRAG.get_schema movieMeta = GraphRAG.get_schema movieMeta ∧
      GraphRAG.get_schema movieMeta
        = "Node properties: [\x7b'properties': [('title', 'STRING'), ('embedding', 'FLOAT[1536]')], 'label': 'Movie'\x7d, \x7b'properties': [('name', 'STRING')], 'label': 'Writer'\x7d]\nRelationships properties: [\x7b'properties': [('year', 'INT64')], 'label': 'WROTE'\x7d]\nRelationships: ['(:Writer)-[:WROTE]->(:Movie)']\n" :=
  ⟨C6_theorem movieMeta movieMeta rfl, rfl⟩

/-- A collaborator call made by the graph-only pipeline: a Cypher
translation LLM call or a graph query execution. -/
inductive GCall where
  | genCypher
  | runQuery
deriving DecidableEq, BEq, Repr

/-- External collaborators of the graph-only pipeline (`GraphRAG`): the
Cypher-generation LLM (with its fixed seed) and the graph store's row
stream for an executed query. -/
structure GEnv where
  genCypher : String → String
  rows : String → List (List PyVal)
  setOrder : SetOrder

/-- `GraphRAG.retrieve` (graph_rag.py lines 122-143): despite receiving a
`context` argument, the body immediately recomputes `cypher =
self.generate_cypher(question)` and rebinds `context = self.query(question,
cypher)`, so the argument is dead.  Returns the rendered user prompt
together with the trace of collaborator calls the body makes. -/
def GraphRAG.retrieve (genv : GEnv) (question : String) (context : String) :
    String × List GCall :=
  let cypher := genv.genCypher question
  let ctx := GraphRAG.query genv.setOrder question (genv.rows cypher)
  ("\n            Given the following question and relevant context, please provide a comprehensive and\n            accurate response:\n\n            Question: "
      ++ question
      ++ "\n            Relevant context:\n            " ++ pyStrDict ctx
      ++ "\n\n            Response:\n        ",
   [GCall.genCypher, GCall.runQuery])

/-- `GraphRAG.run` (graph_rag.py lines 145-149): generate Cypher, query the
graph, then call `retrieve` — which regenerates the Cypher and re-queries.
Returns the final prompt and the full collaborator-call trace. -/
def GraphRAG.run (genv : GEnv) (question : String) : String × List GCall :=
  let cypher := genv.genCypher question
  let context := GraphRAG.query genv.setOrder question (genv.rows cypher)
  let r := GraphRAG.retrieve genv question (pyStrDict context)
  (r.1, [GCall.genCypher, GCall.runQuery] ++ r.2)

/-- C10: `GraphRAG.retrieve` ignores its `context` argument — two calls
with the same question and different contexts yield the same prompt — and
`GraphRAG.run` therefore performs Cypher translation and graph query
execution twice per question. -/
theorem C10_theorem (genv : GEnv) (question c1 c2 : String) :
    GraphRAG.retrieve genv question c1 = GraphRAG.retrieve genv question c2 ∧
      (GraphRAG.run genv question).2.count GCall.genCypher = 2 ∧
      (GraphRAG.run genv question).2.count GCall.runQuery = 2 :=
  ⟨rfl, rfl, rfl⟩

/-- A concrete graph-only environment for the C10 witness. -/
def genvC10 : GEnv where
  genCypher _ := "MATCH (w:Writer)-[:WROTE]->(m:Movie) RETURN w.name"
  rows _ := [[.s "Jonathan Nolan"], [.s "Christopher Nolan"]]
  setOrder := insOrder

/-- C10, witness: the statement at a concrete environment and two distinct
contexts. -/
theorem C10_witness :
    GraphRAG.retrieve genvC10 "q10" "context A"
      = GraphRAG.retrieve genvC10 "q10" "context B" :=
  (C10_theorem genvC10 "q10" "context A" "context B").1
